import Mathlib

/-!
Verification of the `async_rq_worker` repository (`src/init_worker.py`)
against its natural-language specification.

The single source file defines `AsyncRQWorker`, a dataclass holding a redis
client, queue names, an optional processing callback and a logger, with:
  * `init_queues` — pydantic validation of the queue-name list plus the
    `":processing"` suffix mapping,
  * `set_task_in_queue` — the enqueue path (task-id generation, destination
    resolution, envelope building, `json.dumps`, `lpush`),
  * `run` — the dequeue/decode/dispatch loop with per-iteration error
    containment and a dedicated `asyncio.CancelledError` handler.

The embedding below models Python values, dicts and exceptions explicitly,
threads effects (logs, sleeps, store calls) as explicit lists, and models
the two `await`-suspension-dependent behaviours (blocking pop results,
cancellation delivery at suspension points) as inputs to the loop.
-/

namespace AsyncRQWorker

/-- JSON values as produced by `json.loads` / consumed by `json.dumps`.
Objects keep insertion order, as Python dicts do; numbers are modelled as
integers (the claims do not involve fractional payloads). -/
inductive JVal where
  | null : JVal
  | boolVal : Bool → JVal
  | num : Int → JVal
  | str : String → JVal
  | arr : List JVal → JVal
  | obj : List (String × JVal) → JVal
  deriving Repr

/-- The Python type name of the value `json.loads` returned, as it appears in
the `AttributeError` text when `.keys()` is called on a non-dict. -/
def JVal.pyTypeName : JVal → String
  | .null => "NoneType"
  | .boolVal _ => "bool"
  | .num _ => "int"
  | .str _ => "str"
  | .arr _ => "list"
  | .obj _ => "dict"

/-- Minimal JSON string escaping used by the serializer model (the claims
involve no control characters, so only the two mandatory escapes appear). -/
def jsonEscapeChar (c : Char) : List Char :=
  if c = '"' then ['\\', '"']
  else if c = '\\' then ['\\', '\\']
  else [c]

/-- Escape a whole string for JSON serialization. -/
def jsonEscape (s : String) : String := ⟨(s.data.map jsonEscapeChar).flatten⟩

mutual
/-- Model of `json.dumps(·, ensure_ascii=False)` on a JSON value. -/
def JVal.dumps : JVal → String
  | .null => "null"
  | .boolVal true => "true"
  | .boolVal false => "false"
  | .num n => toString n
  | .str s => "\"" ++ jsonEscape s ++ "\""
  | .arr xs => "[" ++ dumpsList xs ++ "]"
  | .obj fs => "\x7b" ++ dumpsFields fs ++ "\x7d"

def dumpsList : List JVal → String
  | [] => ""
  | [x] => JVal.dumps x
  | x :: xs => JVal.dumps x ++ ", " ++ dumpsList xs

def dumpsFields : List (String × JVal) → String
  | [] => ""
  | [(k, v)] => "\"" ++ jsonEscape k ++ "\": " ++ JVal.dumps v
  | (k, v) :: fs =>
      "\"" ++ jsonEscape k ++ "\": " ++ JVal.dumps v ++ ", " ++ dumpsFields fs
end

/-- Python string slicing `s[:n]`: the first `n` characters (all of `s` when
it is shorter). -/
def pySlice (n : Nat) (s : String) : String := ⟨s.data.take n⟩

/-- Python truthiness of an optional-string argument whose default is `None`:
falsy exactly for `None` and for the empty string. -/
def pyTruthy : Option String → Bool
  | none => false
  | some s => s ≠ ""

/-- A Python dict over string keys, modelled as an insertion-ordered
association list with unique keys (the dicts the code builds are tiny). -/
abbrev PyDict := List (String × JVal)

/-- Python `d.pop(k)`: remove key `k`, returning its value and the remaining dict;
`none` models the `KeyError` when the key is absent. -/
def dictPop (k : String) : PyDict → Option (JVal × PyDict)
  | [] => none
  | (k', v) :: rest =>
      if k' = k then some (v, rest)
      else match dictPop k rest with
        | some (v', rest') => some (v', (k', v) :: rest')
        | none => none

/-- Python `d[k] = v`: update the value in place when the key exists, else append. -/
def dictSet (k : String) (v : JVal) : PyDict → PyDict
  | [] => [(k, v)]
  | (k', v') :: rest =>
      if k' = k then (k, v) :: rest else (k', v') :: dictSet k v rest

/-- The envelope-building dance in `set_task_in_queue`:
`task_template = dict(task_id=data)`;
`task_template[self.task_id] = task_template.pop('task_id')`. -/
def buildTaskTemplate (taskId : String) (data : JVal) : PyDict :=
  let d0 : PyDict := [("task_id", data)]
  match dictPop "task_id" d0 with
  | some (v, d1) => dictSet taskId v d1
  | none => d0

/-! ## Queue validation and initialization (`QueueValidator`, `init_queues`) -/

/-- Modelled from the spec: `QueueStatus.PROCESSING.value` lives in
`enums.py`, which is not under `src/`; the spec fixes it as the literal
`":processing"` suffix ("logical name + literal suffix `:processing` forms
the physical store key"). -/
def PROCESSING : String := ":processing"

/-- A dynamic Python value as seen by the pydantic validator (only the shapes
relevant to a `queue_names` argument). -/
inductive PyVal where
  | pyStr : String → PyVal
  | pyInt : Int → PyVal
  | pyNone : PyVal
  | pyList : List PyVal → PyVal
  deriving Repr

/-- pydantic validation of one item of a `list[str]` field: strings are
accepted verbatim, anything else is a validation error. -/
def validateStrItem : PyVal → Except String String
  | .pyStr s => .ok s
  | _ => .error "Input should be a valid string"

/-- Model of `QueueValidator(queue_names=...)`: the `queue_names: list[str]` field of
the pydantic `BaseModel`. The annotation carries no `min_length` (or any
other) constraint, so validation checks only that the input is a list and
that every item is a string; the empty list passes. -/
def queueValidator : PyVal → Except String (List String)
  | .pyList xs => xs.mapM validateStrItem
  | _ => .error "Input should be a valid list"

/-- Model of `AsyncRQWorker.init_queues`: validate `queue_names` through
`QueueValidator` and append the processing suffix to every validated name;
a `ValidationError` is re-raised as `ValueError` with the validation detail
in the message. -/
def init_queues (queue_names : PyVal) : Except String (List String) :=
  match queueValidator queue_names with
  | .ok names => .ok (names.map (fun name => name ++ PROCESSING))
  | .error e => .error ("Queue validation error: " ++ e)

/-- The worker configuration after `__post_init__` ran: the suffixed queue
set and the registered processing callback's `__name__` (present iff a
callback was registered). -/
structure WorkerCfg where
  queue_names : List String
  function : Option String
  deriving Repr

/-- Worker construction: the dataclass `__post_init__`, which runs
`init_queues` (and so can raise `ValueError`) before the worker exists. -/
def mkWorker (queue_names : PyVal) (function : Option String) :
    Except String WorkerCfg :=
  match init_queues queue_names with
  | .ok qs => .ok ⟨qs, function⟩
  | .error e => .error e

/-! ## Effects and messages

`enums.WorkerMessage` is not under `src/`. Modelled from the spec: log
messages are structured values carrying exactly the arguments the code
passes through `.format` (callback name, queue, task id, data, error text),
so claims about *which* context a log line carries are statable without the
literal template text. -/

/-- A log message together with the format arguments the code supplies. -/
inductive Msg where
  | workerStarted : String → Msg
  | noFunction : Msg
  | taskReceived : Option String → Option (String × String) → Msg
  | dataReceived : Option String → JVal → Msg
  | taskSent : String → String → JVal → Msg
  | processingError : Option String → String → Msg
  | workerStopped : Msg
  deriving Repr

/-- Observable effects of the worker, in program order. -/
inductive Effect where
  | logInfo : Msg → Effect
  | logDebug : Msg → Effect
  | logError : Msg → Effect
  | blpop : List String → Effect
  | lpush : String → String → Effect
  | callCallback : String → JVal → Effect
  | sleep : Nat → Effect
  deriving Repr

/-! ## Enqueue path (`set_task_in_queue`) -/

/-- Result of the store's `lpush` call, an input to the enqueue model. -/
inductive StoreOutcome where
  | ok : StoreOutcome
  | storeError : String → StoreOutcome
  deriving Repr

/-- How one `set_task_in_queue` call ends. -/
inductive EnqueueOutcome where
  | done : EnqueueOutcome
  | storeError : String → EnqueueOutcome
  | indexError : EnqueueOutcome
  deriving Repr

/-- One `set_task_in_queue` call: the value the mutable `self.task_id` field
now holds, the effects in program order, and how the call ended (an error
outcome means the exception propagates to the caller uncaught). -/
structure EnqueueResult where
  new_task_id : String
  effects : List Effect
  outcome : EnqueueOutcome
  deriving Repr

/-- Task-id resolution in `set_task_in_queue`: a falsy `task_id` (absent or
empty) is replaced by `str(uuid.uuid4())[:10]`; `uuidStr` is the uuid
string produced on this call (36 characters in reality; the model leaves it
arbitrary). -/
def resolveTaskId (uuidStr : String) (task_id : Option String) : String :=
  if pyTruthy task_id then task_id.getD "" else pySlice 10 uuidStr

/-- Destination resolution in `set_task_in_queue`:
`if queue_name: queue_name += QueueStatus.PROCESSING.value` followed by
`queue = queue_name or self.queue_names[0]`; the `IndexError` of `[0]` on
an empty queue set is the `.error` case. -/
def resolveQueue (queue_names : List String) (queue_name : Option String) :
    Except Unit String :=
  let queue_name' : Option String :=
    if pyTruthy queue_name then some (queue_name.getD "" ++ PROCESSING)
    else queue_name
  if pyTruthy queue_name' then .ok (queue_name'.getD "")
  else match queue_names with
    | [] => .error ()
    | q :: _ => .ok q

/-- Model of `AsyncRQWorker.set_task_in_queue(data, queue_name, task_id)`: resolve
the task id and the destination queue, log `TASK_SENT`, build the envelope
and `lpush` its serialization; `push` is the store's verdict on that call,
and an error outcome (the `IndexError`, or the store error) propagates to
the caller uncaught. -/
def set_task_in_queue (w : WorkerCfg) (uuidStr : String) (data : JVal)
    (queue_name : Option String) (task_id : Option String)
    (push : StoreOutcome) : EnqueueResult :=
  let tid := resolveTaskId uuidStr task_id
  match resolveQueue w.queue_names queue_name with
  | .error _ => ⟨tid, [], .indexError⟩
  | .ok queue =>
      let serialized := JVal.dumps (.obj (buildTaskTemplate tid data))
      let effs : List Effect :=
        [.logInfo (.taskSent queue tid data), .lpush queue serialized]
      match push with
      | .ok => ⟨tid, effs, .done⟩
      | .storeError e => ⟨tid, effs, .storeError e⟩

/-! ## Run loop (`run`) -/

/-- The exceptions the `try` body of an iteration can raise (beyond
cancellation): the re-raised `ValueError` from a JSON decode failure
(carrying `str(e)[:30]`), the `AttributeError` from `.keys()` on a
non-dict, the `IndexError` from `[0]` on an empty dict, whatever the
callback raised, and a non-cancellation exception from the store's
`blpop` call itself. -/
inductive ProcExn where
  | decodeError : String → ProcExn
  | attributeError : String → ProcExn
  | indexError : ProcExn
  | callbackError : String → ProcExn
  | dequeueError : String → ProcExn
  deriving Repr

/-- Modelled from the spec: the `WorkerMessage.JSON_DECODE_ERROR` template is
in `enums.py`, not under `src/`; the spec says only that the decode error
carries the truncated snippet of the parse error. -/
def jsonDecodeErrorText (snippet : String) : String :=
  "JSON decode error: " ++ snippet

/-- The Python `str(e)` text of each processing exception, as passed into the error log. -/
def ProcExn.toMessage : ProcExn → String
  | .decodeError s => jsonDecodeErrorText s
  | .attributeError ty => "'" ++ ty ++ "' object has no attribute 'keys'"
  | .indexError => "list index out of range"
  | .callbackError m => m
  | .dequeueError m => m

/-- Task-id and payload extraction:
`task_id = list(data.keys())[0]; cleaned_data = list(data.values())[0]`. -/
def extractTask : JVal → Except ProcExn (String × JVal)
  | .obj [] => .error .indexError
  | .obj ((k, v) :: _) => .ok (k, v)
  | v => .error (.attributeError v.pyTypeName)

/-- A dequeued item: the queue it came from, the raw payload string, and the
result `json.loads` gives on that payload (the parser is external to the
core; its verdict on each raw string is an input to the model). -/
structure RawItem where
  queue : String
  raw : String
  parsed : Except String JVal
  deriving Repr

/-- What the blocking pop did on one iteration: a cancellation signal
delivered while suspended in `blpop`, a non-cancellation exception raised
by the store call, or a (possibly falsy) item. -/
inductive DequeueOutcome where
  | cancelledWhileWaiting : DequeueOutcome
  | raised : String → DequeueOutcome
  | got : Option RawItem → DequeueOutcome
  deriving Repr

/-- What `await self.function(task_id, cleaned_data)` did, when reached:
completed, raised an `Exception` with the given text, or had a cancellation
signal delivered while suspended in it. -/
inductive CbOutcome where
  | ok : CbOutcome
  | raised : String → CbOutcome
  | cancelledDuring : CbOutcome
  deriving Repr

/-- What `await asyncio.sleep(1)` did, when reached: completed, or had a
cancellation signal delivered while suspended in it. -/
inductive SleepOutcome where
  | completed : SleepOutcome
  | cancelledDuring : SleepOutcome
  deriving Repr

/-- The scheduler-dependent inputs of one loop iteration; `cb` and `slp`
matter only when the corresponding suspension point is reached. -/
structure IterEvent where
  deq : DequeueOutcome
  cb : CbOutcome
  slp : SleepOutcome
  deriving Repr

/-- How one iteration of the `while True` body ends. -/
inductive IterResult where
  | continueLoop : IterResult
  | stoppedClean : IterResult
  | raisedCancelled : IterResult
  deriving Repr, DecidableEq

/-- The generic `except Exception` handler: log at error level with the
callback name and `str(e)`, then back off with `asyncio.sleep(1)` — a
cancellation delivered during that sleep is caught by nothing and
propagates out of `run`. -/
def handleProcExn (f : String) (e : ProcExn) (pre : List Effect)
    (slp : SleepOutcome) : List Effect × IterResult :=
  let logged := pre ++ [.logError (.processingError (some f) e.toMessage)]
  match slp with
  | .completed => (logged ++ [.sleep 1], .continueLoop)
  | .cancelledDuring => (logged ++ [.sleep 1], .raisedCancelled)

/-- One iteration of the `while True` body of `run`, for a worker whose
registered callback is named `f` and whose queue set is `queues`:
`get_task_from_queue` (blpop plus the `TASK_RECEIVED` info log), the
`if item:` falsy check, `json.loads` with the re-raised truncated
`ValueError`, the `DATA_RECEIVED` info log, key/value extraction, the
callback call, the dedicated `except asyncio.CancelledError` handler
(info log and `break`), and the generic `except Exception` handler. -/
def runIteration (f : String) (queues : List String) (ev : IterEvent) :
    List Effect × IterResult :=
  match ev.deq with
  | .cancelledWhileWaiting =>
      ([.blpop queues, .logInfo .workerStopped], .stoppedClean)
  | .raised m =>
      handleProcExn f (.dequeueError m) [.blpop queues] ev.slp
  | .got none =>
      ([.blpop queues, .logInfo (.taskReceived (some f) none)], .continueLoop)
  | .got (some item) =>
      let pre : List Effect :=
        [.blpop queues,
         .logInfo (.taskReceived (some f) (some (item.queue, item.raw)))]
      match item.parsed with
      | .error e => handleProcExn f (.decodeError (pySlice 30 e)) pre ev.slp
      | .ok data =>
          let pre2 := pre ++ [.logInfo (.dataReceived (some f) data)]
          match extractTask data with
          | .error ex => handleProcExn f ex pre2 ev.slp
          | .ok (tid, payload) =>
              let pre3 := pre2 ++ [.callCallback tid payload]
              match ev.cb with
              | .ok => (pre3, .continueLoop)
              | .raised m => handleProcExn f (.callbackError m) pre3 ev.slp
              | .cancelledDuring =>
                  (pre3 ++ [.logInfo .workerStopped], .stoppedClean)

/-- The exception the processing step of an iteration raises, if any
(`none` for a clean iteration, a falsy item, or a cancellation). -/
def procExnOf (ev : IterEvent) : Option ProcExn :=
  match ev.deq with
  | .raised m => some (.dequeueError m)
  | .got (some item) =>
      match item.parsed with
      | .error e => some (.decodeError (pySlice 30 e))
      | .ok data =>
          match extractTask data with
          | .error ex => some ex
          | .ok _ =>
              match ev.cb with
              | .raised m => some (.callbackError m)
              | _ => none
  | _ => none

/-- How a `run` call ends over a finite observation window. -/
inductive RunResult where
  | raisedRuntimeError : RunResult
  | stoppedClean : RunResult
  | raisedCancelled : RunResult
  | outOfTrace : RunResult
  deriving Repr, DecidableEq

/-- The `while True` loop over a finite window of iteration events;
`outOfTrace` means the window ended with the loop still running. -/
def runLoop (f : String) (queues : List String) :
    List IterEvent → List Effect × RunResult
  | [] => ([], .outOfTrace)
  | ev :: rest =>
      match runIteration f queues ev with
      | (es, .continueLoop) =>
          let (es2, r) := runLoop f queues rest
          (es ++ es2, r)
      | (es, .stoppedClean) => (es, .stoppedClean)
      | (es, .raisedCancelled) => (es, .raisedCancelled)

/-- Model of `AsyncRQWorker.run`: log the `WORKER_STARTED` message with the worker's
repr (its class name), fail with `RuntimeError` when no callback is
registered (after a debug log, before any store call), otherwise enter the
loop. -/
def run (w : WorkerCfg) (events : List IterEvent) : List Effect × RunResult :=
  let started : List Effect := [.logInfo (.workerStarted "AsyncRQWorker")]
  match w.function with
  | none => (started ++ [.logDebug .noFunction], .raisedRuntimeError)
  | some f =>
      let (es, r) := runLoop f w.queue_names events
      (started ++ es, r)

/-! ## Helper lemmas -/

/-- Python slicing `s[:n]` keeps `min n s.length` characters. -/
theorem pySlice_length (n : Nat) (s : String) :
    (pySlice n s).length = min n s.length := by
  cases s with
  | mk data =>
      show (data.take n).length = min n data.length
      simp [List.length_take]

/-- The pydantic validator accepts any list of strings verbatim. -/
theorem queueValidator_strings (names : List String) :
    queueValidator (.pyList (names.map .pyStr)) = .ok names := by
  show (names.map PyVal.pyStr).mapM validateStrItem = .ok names
  induction names with
  | nil => rfl
  | cons n ns ih =>
      rw [List.map_cons, List.mapM_cons, ih]
      rfl

/-- A suffixed queue name is never the empty string. -/
theorem suffixed_nonempty (name : String) : name ++ PROCESSING ≠ "" := by
  intro h
  have h2 := congrArg String.length h
  rw [String.length_append] at h2
  have h3 : PROCESSING.length = 11 := by decide
  simp [h3] at h2

/-- The function `set_task_in_queue` stores the explicit task id when it is truthy and
the first 10 characters of the fresh uuid otherwise, whatever else the
call does. -/
theorem set_task_new_task_id (w : WorkerCfg) (u : String) (d : JVal)
    (qn tidArg : Option String) (p : StoreOutcome) :
    (set_task_in_queue w u d qn tidArg p).new_task_id =
      resolveTaskId u tidArg := by
  unfold set_task_in_queue
  dsimp only
  repeat' split
  all_goals rfl

/-- A truthy queue name resolves to its suffixed form. -/
theorem resolveQueue_truthy (queue_names : List String) (name : String)
    (hname : name ≠ "") :
    resolveQueue queue_names (some name) = .ok (name ++ PROCESSING) := by
  have h1 : pyTruthy (some name) = true := by simp [pyTruthy, hname]
  have h2 : pyTruthy (some (name ++ PROCESSING)) = true := by
    simp [pyTruthy, suffixed_nonempty name]
  simp [resolveQueue, h1, h2]

/-- A falsy queue name resolves to the head of a non-empty queue set. -/
theorem resolveQueue_falsy (queue_names : List String) (q : String)
    (rest : List String) (qn : Option String)
    (hqn : pyTruthy qn = false) (hqs : queue_names = q :: rest) :
    resolveQueue queue_names qn = .ok q := by
  cases qn with
  | none => simp [resolveQueue, pyTruthy, hqs]
  | some s =>
      simp [pyTruthy] at hqn
      simp [resolveQueue, pyTruthy, hqn, hqs]

/-- Full characterization of `set_task_in_queue` when the destination
resolves: the task-id field is set, the `TASK_SENT` log and the push of the
serialized envelope happen in order, and the outcome mirrors the store's
verdict. -/
theorem set_task_ok (w : WorkerCfg) (u : String) (d : JVal)
    (qn tidArg : Option String) (p : StoreOutcome) (queue : String)
    (hq : resolveQueue w.queue_names qn = .ok queue) :
    set_task_in_queue w u d qn tidArg p =
      ⟨resolveTaskId u tidArg,
       [.logInfo (.taskSent queue (resolveTaskId u tidArg) d),
        .lpush queue
          (JVal.dumps (.obj (buildTaskTemplate (resolveTaskId u tidArg) d)))],
       match p with
       | .ok => .done
       | .storeError e => .storeError e⟩ := by
  unfold set_task_in_queue
  rw [hq]
  cases p <;> rfl

/-! ## Claim theorems -/

/-- C2: for every non-empty list of queue-name strings, the queue
initializer returns a list of the same length in which the i-th element is
the i-th input name with the fixed `":processing"` suffix appended,
preserving order and count. -/
theorem init_queues_appends_suffix (names : List String) (_h : names ≠ []) :
    init_queues (.pyList (names.map .pyStr)) =
      .ok (names.map (fun name => name ++ ":processing")) ∧
    (names.map (fun name => name ++ ":processing")).length = names.length ∧
    ∀ i : Nat, (names.map (fun name => name ++ ":processing"))[i]? =
      (names[i]?).map (fun name => name ++ ":processing") := by
  refine ⟨?_, by simp, ?_⟩
  · rw [init_queues, queueValidator_strings]
    rfl
  · intro i
    simp [List.getElem?_map]

/-- C2 witness: a concrete single-queue instance. -/
theorem init_queues_appends_suffix_witness :
    init_queues (.pyList [PyVal.pyStr "orders"]) = .ok ["orders:processing"] := by
  have h := (init_queues_appends_suffix ["orders"] (by simp)).1
  simpa using h

/-- C3 counterexample: constructing a worker with an empty queue-name list
does not fail — pydantic's `list[str]` annotation carries no minimum-length
constraint, so validation accepts the empty list and `__post_init__`
completes with an empty queue set. -/
theorem mkWorker_empty_queues_ok :
    mkWorker (.pyList []) (some "handler") =
      .ok ⟨[], some "handler"⟩ := rfl

/-- C3 (amended): constructing a worker with an empty queue-name sequence
succeeds with an empty (suffixed) queue set and no configuration error;
the misconfiguration surfaces only at runtime, e.g. an enqueue call that
falls back to the default queue raises `IndexError` (before logging or
pushing anything). -/
theorem mkWorker_empty_queues_behavior (f : Option String) (u : String)
    (d : JVal) (p : StoreOutcome) :
    mkWorker (.pyList []) f = .ok ⟨[], f⟩ ∧
    (set_task_in_queue ⟨[], f⟩ u d none none p).outcome =
      .indexError ∧
    (set_task_in_queue ⟨[], f⟩ u d none none p).effects = [] := by
  exact ⟨rfl, rfl, rfl⟩

/-- C4: for every single-key envelope `{id: payload}`, decoding (take the
first key as task id and its value as payload) followed by re-encoding with
that id and payload (the `task_template` dict dance) yields the same
envelope, also after serialization. -/
theorem envelope_roundtrip (id : String) (payload : JVal) :
    extractTask (.obj [(id, payload)]) = .ok (id, payload) ∧
    JVal.obj (buildTaskTemplate id payload) = .obj [(id, payload)] ∧
    JVal.dumps (.obj (buildTaskTemplate id payload)) =
      JVal.dumps (.obj [(id, payload)]) := by
  have hb : buildTaskTemplate id payload = [(id, payload)] := by
    simp [buildTaskTemplate, dictPop, dictSet]
  exact ⟨rfl, by rw [hb], by rw [hb]⟩

/-- C5: calling `run` on a worker with no callback registered raises the
`RuntimeError` immediately after the start and debug logs — no blocking
dequeue against the store is ever issued. -/
theorem run_without_callback (qs : List String) (events : List IterEvent) :
    run ⟨qs, none⟩ events =
      ([.logInfo (.workerStarted "AsyncRQWorker"), .logDebug .noFunction],
        .raisedRuntimeError) ∧
    ∀ queues, Effect.blpop queues ∉ (run ⟨qs, none⟩ events).1 := by
  refine ⟨rfl, ?_⟩
  intro queues
  have h1 : (run ⟨qs, none⟩ events).1 =
      [.logInfo (.workerStarted "AsyncRQWorker"), .logDebug .noFunction] := rfl
  rw [h1]
  simp

/-- C7: an enqueue call with no (or falsy) task id stores the first 10
characters of the fresh uuid string — a 10-character, non-empty identifier
(uuid strings are 36 characters, here modelled as at least 10) — and two
calls whose fresh uuids differ on that prefix store distinct identifiers;
an enqueue call with a non-empty explicit task id stores exactly it. -/
theorem enqueue_task_id_generation (w : WorkerCfg) (u1 u2 : String)
    (d1 d2 : JVal) (qn : Option String) (p : StoreOutcome) (s : String)
    (hu : 10 ≤ u1.length) (hs : s ≠ "") :
    (set_task_in_queue w u1 d1 qn none p).new_task_id = pySlice 10 u1 ∧
    ((set_task_in_queue w u1 d1 qn none p).new_task_id).length = 10 ∧
    (set_task_in_queue w u1 d1 qn none p).new_task_id ≠ "" ∧
    (pySlice 10 u1 ≠ pySlice 10 u2 →
      (set_task_in_queue w u1 d1 qn none p).new_task_id ≠
        (set_task_in_queue w u2 d2 qn none p).new_task_id) ∧
    (set_task_in_queue w u1 d1 qn (some s) p).new_task_id = s := by
  have h1 : (set_task_in_queue w u1 d1 qn none p).new_task_id =
      pySlice 10 u1 := set_task_new_task_id w u1 d1 qn none p
  have h2 : (set_task_in_queue w u2 d2 qn none p).new_task_id =
      pySlice 10 u2 := set_task_new_task_id w u2 d2 qn none p
  have h3 : (set_task_in_queue w u1 d1 qn (some s) p).new_task_id = s := by
    rw [set_task_new_task_id]
    simp [resolveTaskId, pyTruthy, hs]
  have hlen : (pySlice 10 u1).length = 10 := by
    rw [pySlice_length]; omega
  refine ⟨h1, by rw [h1]; exact hlen, ?_, ?_, h3⟩
  · rw [h1]
    intro hE
    rw [hE] at hlen
    simp at hlen
  · intro hne
    rw [h1, h2]
    exact hne

/-- C7 witness: two concrete uuid draws and one explicit id. -/
theorem enqueue_task_id_generation_witness :
    (set_task_in_queue ⟨["orders:processing"], some "handler"⟩
        "123e4567-e89b-12d3-a456-426614174000" (.obj [("x", .num 1)])
        none none .ok).new_task_id = "123e4567-e" ∧
    (set_task_in_queue ⟨["orders:processing"], some "handler"⟩
        "123e4567-e89b-12d3-a456-426614174000" (.obj [("x", .num 1)])
        none none .ok).new_task_id ≠
      (set_task_in_queue ⟨["orders:processing"], some "handler"⟩
        "ffffffff-ffff-ffff-ffff-ffffffffffff" (.obj [("y", .num 2)])
        none none .ok).new_task_id ∧
    (set_task_in_queue ⟨["orders:processing"], some "handler"⟩
        "123e4567-e89b-12d3-a456-426614174000" (.obj [("x", .num 1)])
        none (some "explicit-1") .ok).new_task_id = "explicit-1" := by
  have h := enqueue_task_id_generation ⟨["orders:processing"], some "handler"⟩
    "123e4567-e89b-12d3-a456-426614174000" "ffffffff-ffff-ffff-ffff-ffffffffffff"
    (.obj [("x", .num 1)]) (.obj [("y", .num 2)]) none .ok "explicit-1"
    (by decide) (by decide)
  refine ⟨?_, h.2.2.2.1 (by decide), h.2.2.2.2⟩
  rw [h.1]
  decide

/-- C8: an enqueue call logs and pushes to the provided queue name with the
`":processing"` suffix appended, or to the first (already suffixed) queue
of the queue set when no name is provided; the pushed value is the
serialization of the single-key envelope built from the resolved task id
and the payload; a store failure of the push propagates to the caller. -/
theorem enqueue_destination_and_propagation (w : WorkerCfg) (q : String)
    (rest : List String) (u : String) (d : JVal) (tidArg : Option String)
    (p : StoreOutcome) (name e : String)
    (hname : name ≠ "") (hw : w.queue_names = q :: rest) :
    (set_task_in_queue w u d (some name) tidArg p).effects =
      [.logInfo (.taskSent (name ++ ":processing")
          (set_task_in_queue w u d (some name) tidArg p).new_task_id d),
       .lpush (name ++ ":processing")
         (JVal.dumps (.obj (buildTaskTemplate
           (set_task_in_queue w u d (some name) tidArg p).new_task_id d)))] ∧
    (set_task_in_queue w u d none tidArg p).effects =
      [.logInfo (.taskSent q
          (set_task_in_queue w u d none tidArg p).new_task_id d),
       .lpush q (JVal.dumps (.obj (buildTaskTemplate
           (set_task_in_queue w u d none tidArg p).new_task_id d)))] ∧
    ((set_task_in_queue w u d (some name) tidArg p).outcome =
        .storeError e ↔ p = .storeError e) := by
  have h1 := set_task_ok w u d (some name) tidArg p (name ++ PROCESSING)
    (resolveQueue_truthy w.queue_names name hname)
  have h2 := set_task_ok w u d none tidArg p q
    (resolveQueue_falsy w.queue_names q rest none rfl hw)
  refine ⟨?_, ?_, ?_⟩
  · rw [h1]
    rfl
  · rw [h2]
  · rw [h1]
    cases p <;> simp

/-- C8 witness: the worked example from the spec, plus a failing push. -/
theorem enqueue_destination_and_propagation_witness :
    (set_task_in_queue ⟨["orders:processing"], some "handler"⟩
        "123e4567-e89b-12d3-a456-426614174000" (.obj [("x", .num 1)])
        (some "emails") none .ok).effects =
      [.logInfo (.taskSent "emails:processing" "123e4567-e" (.obj [("x", .num 1)])),
       .lpush "emails:processing"
         "\x7b\"123e4567-e\": \x7b\"x\": 1\x7d\x7d"] ∧
    ((set_task_in_queue ⟨["orders:processing"], some "handler"⟩
        "123e4567-e89b-12d3-a456-426614174000" (.obj [("x", .num 1)])
        (some "emails") none (.storeError "connection lost")).outcome =
      .storeError "connection lost") := by
  have h := enqueue_destination_and_propagation
    ⟨["orders:processing"], some "handler"⟩ "orders:processing" []
    "123e4567-e89b-12d3-a456-426614174000" (.obj [("x", .num 1)]) none .ok
    "emails" "connection lost" (by decide) rfl
  have h2 := enqueue_destination_and_propagation
    ⟨["orders:processing"], some "handler"⟩ "orders:processing" []
    "123e4567-e89b-12d3-a456-426614174000" (.obj [("x", .num 1)]) none
    (.storeError "connection lost") "emails" "connection lost" (by decide) rfl
  constructor
  · rw [h.1]
    rfl
  · exact (h2.2.2).mpr rfl

/-- C9: when parsing a dequeued payload fails, the re-raised decode error
carries `str(e)[:30]` — a snippet of at most 30 characters that is a prefix
of the parse error text, and is strictly shorter than (hence never) the
full text whenever that text exceeds 30 characters. -/
theorem decode_error_snippet_bounded (ev : IterEvent) (item : RawItem)
    (e : String) (hd : ev.deq = .got (some item))
    (hp : item.parsed = .error e) :
    procExnOf ev = some (.decodeError (pySlice 30 e)) ∧
    (pySlice 30 e).length ≤ 30 ∧
    (pySlice 30 e).data <+: e.data ∧
    (30 < e.length → pySlice 30 e ≠ e) := by
  refine ⟨?_, ?_, ?_, ?_⟩
  · simp [procExnOf, hd, hp]
  · rw [pySlice_length]; omega
  · exact List.take_prefix 30 e.data
  · intro hlen heq
    have h2 := congrArg String.length heq
    rw [pySlice_length] at h2
    omega

/-- A dequeued item whose payload is not valid JSON, with the parse error
text CPython's `json` module produces for it. -/
def decodeFailEvent : IterEvent :=
  ⟨.got (some ⟨"orders:processing", "not json",
      .error "Expecting value: line 1 column 1 (char 0)"⟩),
   .ok, .completed⟩

/-- C9 witness: the snippet of a concrete 41-character parse error. -/
theorem decode_error_snippet_bounded_witness :
    procExnOf decodeFailEvent =
      some (.decodeError
        (pySlice 30 "Expecting value: line 1 column 1 (char 0)")) ∧
    (pySlice 30 "Expecting value: line 1 column 1 (char 0)").length ≤ 30 ∧
    (30 < ("Expecting value: line 1 column 1 (char 0)" : String).length →
      pySlice 30 "Expecting value: line 1 column 1 (char 0)" ≠
        "Expecting value: line 1 column 1 (char 0)") := by
  have h := decode_error_snippet_bounded decodeFailEvent
    ⟨"orders:processing", "not json",
      .error "Expecting value: line 1 column 1 (char 0)"⟩
    "Expecting value: line 1 column 1 (char 0)" rfl rfl
  exact ⟨h.1, h.2.1, h.2.2.2⟩

/-- C10: falsy explicit enqueue arguments behave as absent ones — an
empty-string task id is replaced by a fresh generated identifier, and an
empty-string queue name is not suffixed but falls through `or` to the first
queue of the queue set; the whole call behaves exactly like one with both
arguments omitted. -/
theorem enqueue_falsy_args_treated_absent (w : WorkerCfg) (q : String)
    (rest : List String) (u : String) (d : JVal) (p : StoreOutcome)
    (hw : w.queue_names = q :: rest) :
    set_task_in_queue w u d (some "") (some "") p =
      set_task_in_queue w u d none none p ∧
    (set_task_in_queue w u d (some "") (some "") p).new_task_id =
      pySlice 10 u ∧
    (set_task_in_queue w u d (some "") (some "") p).effects =
      [.logInfo (.taskSent q (pySlice 10 u) d),
       .lpush q (JVal.dumps (.obj (buildTaskTemplate (pySlice 10 u) d)))] := by
  have hfalsy : pyTruthy (some "") = false := by simp [pyTruthy]
  have h1 := set_task_ok w u d (some "") (some "") p q
    (resolveQueue_falsy w.queue_names q rest (some "") hfalsy hw)
  have h2 := set_task_ok w u d none none p q
    (resolveQueue_falsy w.queue_names q rest none rfl hw)
  refine ⟨?_, ?_, ?_⟩
  · rw [h1, h2]
    rfl
  · rw [h1]
    rfl
  · rw [h1]
    rfl

/-- C10 witness: a concrete call with both arguments the empty string. -/
theorem enqueue_falsy_args_treated_absent_witness :
    set_task_in_queue ⟨["orders:processing"], some "handler"⟩
        "123e4567-e89b-12d3-a456-426614174000" (.num 7)
        (some "") (some "") .ok =
      set_task_in_queue ⟨["orders:processing"], some "handler"⟩
        "123e4567-e89b-12d3-a456-426614174000" (.num 7) none none .ok ∧
    (set_task_in_queue ⟨["orders:processing"], some "handler"⟩
        "123e4567-e89b-12d3-a456-426614174000" (.num 7)
        (some "") (some "") .ok).effects =
      [.logInfo (.taskSent "orders:processing" "123e4567-e" (.num 7)),
       .lpush "orders:processing" "\x7b\"123e4567-e\": 7\x7d"] := by
  have h := enqueue_falsy_args_treated_absent
    ⟨["orders:processing"], some "handler"⟩ "orders:processing" []
    "123e4567-e89b-12d3-a456-426614174000" (.num 7) .ok rfl
  refine ⟨h.1, ?_⟩
  rw [h.2.2]
  rfl

/-- C1: every exception of the processing step (decode failure, missing or
malformed task id, callback failure — and even a store exception inside the
same `try`) is caught: the iteration ends with an error log carrying the
callback name and the error text followed by the fixed 1-unit backoff
sleep, the loop continues, and the remaining trace is processed unchanged —
in particular a later well-formed task still reaches the callback. -/
theorem processing_exception_contained (f : String) (qs : List String)
    (ev : IterEvent) (e : ProcExn) (rest : List IterEvent)
    (he : procExnOf ev = some e) (hslp : ev.slp = .completed) :
    (runIteration f qs ev).2 = .continueLoop ∧
    (∃ pre, (runIteration f qs ev).1 =
      pre ++ [.logError (.processingError (some f) (ProcExn.toMessage e)),
              .sleep 1]) ∧
    runLoop f qs (ev :: rest) =
      ((runIteration f qs ev).1 ++ (runLoop f qs rest).1,
        (runLoop f qs rest).2) ∧
    ∀ (q2 raw2 tid2 : String) (payload2 : JVal),
      Effect.callCallback tid2 payload2 ∈
        (runLoop f qs
          (ev :: ⟨.got (some ⟨q2, raw2, .ok (.obj [(tid2, payload2)])⟩),
                  .ok, .completed⟩ :: rest)).1 := by
  obtain ⟨deq, cb, slp⟩ := ev
  simp only at hslp
  subst hslp
  have hiter : ∃ pre, runIteration f qs ⟨deq, cb, .completed⟩ =
      (pre ++ [.logError (.processingError (some f) (ProcExn.toMessage e)),
               .sleep 1], .continueLoop) := by
    cases deq with
    | cancelledWhileWaiting => simp [procExnOf] at he
    | raised m =>
        simp [procExnOf] at he
        subst he
        exact ⟨[.blpop qs], by simp [runIteration, handleProcExn]⟩
    | got item =>
        cases item with
        | none => simp [procExnOf] at he
        | some item =>
            cases hpi : item.parsed with
            | error e2 =>
                have he2 : e = .decodeError (pySlice 30 e2) := by
                  simp [procExnOf, hpi] at he
                  exact he.symm
                subst he2
                exact ⟨[.blpop qs,
                    .logInfo (.taskReceived (some f) (some (item.queue, item.raw)))],
                  by simp [runIteration, handleProcExn, hpi]⟩
            | ok data =>
                cases hex : extractTask data with
                | error ex =>
                    have he2 : e = ex := by
                      simp [procExnOf, hpi, hex] at he
                      exact he.symm
                    subst he2
                    exact ⟨[.blpop qs,
                        .logInfo (.taskReceived (some f) (some (item.queue, item.raw))),
                        .logInfo (.dataReceived (some f) data)],
                      by simp [runIteration, handleProcExn, hpi, hex]⟩
                | ok kv =>
                    cases cb with
                    | ok => simp [procExnOf, hpi, hex] at he
                    | cancelledDuring => simp [procExnOf, hpi, hex] at he
                    | raised m =>
                        have he2 : e = .callbackError m := by
                          simp [procExnOf, hpi, hex] at he
                          exact he.symm
                        subst he2
                        exact ⟨[.blpop qs,
                            .logInfo (.taskReceived (some f) (some (item.queue, item.raw))),
                            .logInfo (.dataReceived (some f) data),
                            .callCallback kv.1 kv.2],
                          by simp [runIteration, handleProcExn, hpi, hex]⟩
  obtain ⟨pre, hri⟩ := hiter
  have hcomp : ∀ tail : List IterEvent,
      runLoop f qs (⟨deq, cb, .completed⟩ :: tail) =
        ((runIteration f qs ⟨deq, cb, .completed⟩).1 ++ (runLoop f qs tail).1,
          (runLoop f qs tail).2) := by
    intro tail
    rcases hrl : runLoop f qs tail with ⟨es2, r2⟩
    simp [runLoop, hri, hrl]
  refine ⟨by rw [hri], ⟨pre, by rw [hri]⟩, hcomp rest, ?_⟩
  intro q2 raw2 tid2 payload2
  rw [hcomp (⟨.got (some ⟨q2, raw2, .ok (.obj [(tid2, payload2)])⟩),
      .ok, .completed⟩ :: rest)]
  simp [runLoop, runIteration, extractTask]

/-- A dequeued well-formed task whose callback raises, with the backoff
sleep completing. -/
def callbackFailEvent : IterEvent :=
  ⟨.got (some ⟨"orders:processing", "\x7b\"t1\": \x7b\"x\": 1\x7d\x7d",
      .ok (.obj [("t1", .obj [("x", .num 1)])])⟩),
   .raised "boom", .completed⟩

/-- C1 witness: a raising callback is contained and a later task is still
dispatched. -/
theorem processing_exception_contained_witness :
    (runIteration "handler" ["orders:processing"] callbackFailEvent).2 =
      .continueLoop ∧
    (∃ pre, (runIteration "handler" ["orders:processing"] callbackFailEvent).1 =
      pre ++ [.logError (.processingError (some "handler")
                (ProcExn.toMessage (.callbackError "boom"))),
              .sleep 1]) ∧
    Effect.callCallback "t2" (.num 2) ∈
      (runLoop "handler" ["orders:processing"]
        (callbackFailEvent ::
          ⟨.got (some ⟨"orders:processing", "\x7b\"t2\": 2\x7d",
              .ok (.obj [("t2", .num 2)])⟩), .ok, .completed⟩ :: [])).1 := by
  have h := processing_exception_contained "handler" ["orders:processing"]
    callbackFailEvent (.callbackError "boom") [] rfl rfl
  exact ⟨h.1, h.2.1, h.2.2.2 "orders:processing" "\x7b\"t2\": 2\x7d" "t2" (.num 2)⟩

/-- A well-formed dequeued task whose callback await has a cancellation
signal delivered while suspended in it. -/
def cancelDuringCallbackEvent : IterEvent :=
  ⟨.got (some ⟨"orders:processing", "\x7b\"t1\": 1\x7d",
      .ok (.obj [("t1", .num 1)])⟩),
   .cancelledDuring, .completed⟩

/-- C6 counterexample: cancellation while blocked waiting is not the only
path that terminates the loop — the `except asyncio.CancelledError` clause
wraps the whole `try` body, so a cancellation delivered during the callback
await also breaks out of the loop, on an iteration that was not blocked
waiting for a task. -/
theorem cancellation_terminates_beyond_waiting :
    (runIteration "handler" ["orders:processing"]
        cancelDuringCallbackEvent).2 = .stoppedClean ∧
    cancelDuringCallbackEvent.deq ≠ .cancelledWhileWaiting := by
  constructor
  · rfl
  · simp [cancelDuringCallbackEvent]

/-- C6 (amended): a cancellation signal received while blocked waiting for
a task makes the iteration log a stop event and end the loop cleanly —
without raising and without the error handler's backoff sleep — and `run`
then returns normally; but that is not the only terminating path: the loop
terminates only on iterations where a cancellation signal was delivered at
some suspension point it reached (the blocking pop, the callback await, or
the backoff sleep). -/
theorem cancellation_only_termination (f : String) (qs : List String)
    (ev : IterEvent) (rest : List IterEvent)
    (h : (runIteration f qs ev).2 ≠ .continueLoop) :
    (ev.deq = .cancelledWhileWaiting ∨ ev.cb = .cancelledDuring ∨
      ev.slp = .cancelledDuring) ∧
    (runIteration f qs ⟨.cancelledWhileWaiting, ev.cb, ev.slp⟩ =
      ([.blpop qs, .logInfo .workerStopped], .stoppedClean)) ∧
    (Effect.sleep 1 ∉
      (runIteration f qs ⟨.cancelledWhileWaiting, ev.cb, ev.slp⟩).1) ∧
    (run ⟨qs, some f⟩ (⟨.cancelledWhileWaiting, ev.cb, ev.slp⟩ :: rest) =
      ([.logInfo (.workerStarted "AsyncRQWorker"), .blpop qs,
        .logInfo .workerStopped], .stoppedClean)) := by
  refine ⟨?_, rfl, by simp [runIteration], by simp [run, runLoop, runIteration]⟩
  obtain ⟨deq, cb, slp⟩ := ev
  simp only
  cases deq with
  | cancelledWhileWaiting => exact Or.inl rfl
  | raised m =>
      cases slp with
      | completed => simp [runIteration, handleProcExn] at h
      | cancelledDuring => exact Or.inr (Or.inr rfl)
  | got item =>
      cases item with
      | none => simp [runIteration] at h
      | some item =>
          cases hpi : item.parsed with
          | error e2 =>
              cases slp with
              | completed => simp [runIteration, handleProcExn, hpi] at h
              | cancelledDuring => exact Or.inr (Or.inr rfl)
          | ok data =>
              cases hex : extractTask data with
              | error ex =>
                  cases slp with
                  | completed => simp [runIteration, handleProcExn, hpi, hex] at h
                  | cancelledDuring => exact Or.inr (Or.inr rfl)
              | ok kv =>
                  cases cb with
                  | ok => simp [runIteration, hpi, hex] at h
                  | cancelledDuring => exact Or.inr (Or.inl rfl)
                  | raised m =>
                      cases slp with
                      | completed =>
                          simp [runIteration, handleProcExn, hpi, hex] at h
                      | cancelledDuring => exact Or.inr (Or.inr rfl)

/-- C6 witness: cancellation delivered while suspended in the blocking
pop. -/
theorem cancellation_only_termination_witness :
    ((⟨.cancelledWhileWaiting, .ok, .completed⟩ : IterEvent).deq =
        .cancelledWhileWaiting ∨
      (⟨.cancelledWhileWaiting, .ok, .completed⟩ : IterEvent).cb =
        .cancelledDuring ∨
      (⟨.cancelledWhileWaiting, .ok, .completed⟩ : IterEvent).slp =
        .cancelledDuring) ∧
    (runIteration "handler" ["orders:processing"]
        ⟨.cancelledWhileWaiting, .ok, .completed⟩ =
      ([.blpop ["orders:processing"], .logInfo .workerStopped],
        .stoppedClean)) ∧
    (Effect.sleep 1 ∉
      (runIteration "handler" ["orders:processing"]
        ⟨.cancelledWhileWaiting, .ok, .completed⟩).1) ∧
    (run ⟨["orders:processing"], some "handler"⟩
        [⟨.cancelledWhileWaiting, .ok, .completed⟩] =
      ([.logInfo (.workerStarted "AsyncRQWorker"),
        .blpop ["orders:processing"], .logInfo .workerStopped],
        .stoppedClean)) :=
  cancellation_only_termination "handler" ["orders:processing"]
    ⟨.cancelledWhileWaiting, .ok, .completed⟩ []
    (by simp [runIteration])

end AsyncRQWorker
